import Mathlib

/-!
Verification of the compatibility shim `src/esphome/prototypes/ArduinoJson.h`.

The artifact under verification is an eleven-line C++ header:

  #pragma once
  #include <ArduinoJson.hpp>
  using ArduinoJson::JsonArray;
  using ArduinoJson::JsonDocument;
  using ArduinoJson::JsonObject;
  using ArduinoJson::JsonVariant;
  using ArduinoJson::DeserializationError;
  using ArduinoJson::DynamicJsonDocument;

The header has no runtime behavior; its whole contract is about compile-time
name resolution inside a C++ translation unit.  We therefore embed the
relevant fragment of C++ translation-unit processing: a preprocessing /
name-resolution pass over a sequence of directives, with

  * `#pragma once` include guards (a set of already-expanded file ids),
  * namespaced type declarations (the library side), including
    inline-namespace style export, where a type defined in a versioned
    nested namespace is also nameable from the enclosing namespace,
  * using-declarations, which perform qualified lookup at the point of
    declaration and either bind the legacy name in the current scope or
    abort translation with a diagnostic naming the unresolved symbol,
  * preprocessor defines and global runtime initializers as further
    directive forms, so that the frame claims (the shim adds no macro
    names and no runtime footprint) are statable and not vacuous.

C++ identifiers are embedded as atoms (an enumeration listing exactly the
identifiers this development touches); a C++ type is identified with the
symbol that declares it, so two names denote the same type exactly when
they resolve to the same symbol, which also settles size / alignment /
member-contract identity.

The library header `<ArduinoJson.hpp>` is an external dependency and is not
part of the repository; it is modelled from the specification (its Boundary
section), parametrically in the set of names it declares, so that claims
about missing-symbol behavior can quantify over library variants.
Processing carries a nesting-depth budget (as real C++ implementations
bound `#include` nesting); the budget is never reached by any translation
unit considered here.
-/

/-- C++ identifier atoms: the six legacy type names of the shim, the
library namespace `ArduinoJson`, the tag of its versioned nested
namespace, the two file ids involved, a representative preprocessor
definition name of the library, and a supply of further identifiers. -/
inductive CxxId : Type where
  | JsonArray | JsonDocument | JsonObject | JsonVariant
  | DeserializationError | DynamicJsonDocument
  | ArduinoJson
  | V7
  | ArduinoJsonHpp
  | EsphomePrototypesArduinoJsonH
  | ARDUINOJSON_VERSION
  | otherId (k : Nat)
deriving DecidableEq, Repr

/-- One directive of a translation unit, as relevant to the shim:
a namespaced type declaration (with the namespaces from which the
declaration is nameable, modelling inline-namespace export), a
using-declaration, a preprocessor definition, a global runtime
initializer, a namespace block, and an `#include` of a header file
(file id, whether the included file carries `#pragma once`, and its
directives). -/
inductive Item : Type where
  | declareType (defNs : List CxxId) (visibleAt : List (List CxxId)) (name : CxxId)
  | usingDecl (ns : List CxxId) (name : CxxId)
  | ppDefine (name : CxxId)
  | globalInit (tag : CxxId)
  | namespaceBlock (name : CxxId) (items : List Item)
  | includeHeader (fileId : CxxId) (pragmaOnce : Bool) (items : List Item)
deriving Repr

/-- A symbol: the namespace it is defined in together with its name.
A C++ type is identified with its symbol, so symbol equality is type
identity (`std::is_same_v`), and identical symbols have identical size,
alignment and member contract. -/
structure CxxSym where
  ns : List CxxId
  name : CxxId
deriving DecidableEq, Repr

/-- A namespaced declaration: the declared symbol and the namespace paths
from which qualified lookup reaches it (the defining namespace itself,
plus enclosing namespaces when the defining namespace is inline). -/
structure Decl where
  sym : CxxSym
  visibleAt : List (List CxxId)
deriving DecidableEq, Repr

/-- The state of a translation unit during translation: file ids already
expanded under `#pragma once`, namespaced declarations in scope, name
bindings introduced by using-declarations (scope of the binding, bound
name, target symbol; bindings are prepended, so the list is in reverse
order of introduction), preprocessor names defined, and tags of global
runtime initializers contributed to the object file. -/
structure TUState where
  seen : List CxxId
  decls : List Decl
  bindings : List (List CxxId × CxxId × CxxSym)
  ppDefines : List CxxId
  runtimeInits : List CxxId
deriving DecidableEq, Repr

/-- Translation failures: an unresolved symbol at a using-declaration
(the diagnostic carries the qualified name that failed to resolve), or
exceeding the implementation's include-nesting budget. -/
inductive CompileError : Type where
  | unresolvedSymbol (ns : List CxxId) (name : CxxId)
  | depthExceeded
deriving DecidableEq, Repr

instance {ε α : Type} [DecidableEq ε] [DecidableEq α] : DecidableEq (Except ε α) := fun a b =>
  match a, b with
  | .ok x, .ok y =>
      if h : x = y then isTrue (by rw [h]) else isFalse (fun hc => by cases hc; exact h rfl)
  | .error x, .error y =>
      if h : x = y then isTrue (by rw [h]) else isFalse (fun hc => by cases hc; exact h rfl)
  | .ok _, .error _ => isFalse (fun hc => by cases hc)
  | .error _, .ok _ => isFalse (fun hc => by cases hc)

/-- Qualified lookup `ns::n` among the namespaced declarations in scope:
the first declaration whose name is `n` and which is nameable from the
namespace path `ns`. -/
def lookupQualified (st : TUState) (ns : List CxxId) (n : CxxId) : Option CxxSym :=
  (st.decls.find? fun d => d.sym.name == n && d.visibleAt.contains ns).map (fun d => d.sym)

/-- Unqualified lookup of `n` from the global scope: the first binding of
`n` whose scope is the global (empty) namespace path. -/
def lookupUnqualified (st : TUState) (n : CxxId) : Option CxxSym :=
  (st.bindings.find? fun b => b.1 == ([] : List CxxId) && b.2.1 == n).map (fun b => b.2.2)

/-- Process one directive in the given state and scope.  The first
argument is the remaining include-nesting budget; entering an `#include`
or a namespace block consumes one level.  `#pragma once` semantics: an
include of an already-expanded file id is skipped entirely; otherwise the
file id is recorded before its directives are processed.  A
using-declaration performs qualified lookup and either binds the name in
the current scope or fails with a diagnostic carrying the unresolved
qualified name. -/
def processItem : Nat → TUState → List CxxId → Item → Except CompileError TUState
  | _, st, _, .declareType defNs vis n =>
      .ok { st with decls := ⟨⟨defNs, n⟩, vis⟩ :: st.decls }
  | _, st, scope, .usingDecl ns n =>
      match lookupQualified st ns n with
      | some s => .ok { st with bindings := (scope, n, s) :: st.bindings }
      | none => .error (.unresolvedSymbol ns n)
  | _, st, _, .ppDefine n => .ok { st with ppDefines := n :: st.ppDefines }
  | _, st, _, .globalInit t => .ok { st with runtimeInits := t :: st.runtimeInits }
  | 0, _, _, .namespaceBlock _ _ => .error .depthExceeded
  | 0, _, _, .includeHeader _ _ _ => .error .depthExceeded
  | fuel+1, st, scope, .namespaceBlock n items =>
      items.foldl (fun acc i => acc.bind fun s => processItem fuel s (scope ++ [n]) i) (.ok st)
  | fuel+1, st, scope, .includeHeader fid po items =>
      if po && st.seen.contains fid then .ok st
      else items.foldl (fun acc i => acc.bind fun s => processItem fuel s scope i)
             (.ok (if po then { st with seen := fid :: st.seen } else st))

/-- The state at the start of a translation unit: nothing included,
declared, bound, defined or initialized. -/
def initState : TUState := ⟨[], [], [], [], []⟩

/-- Include-nesting budget of the modelled implementation; every
translation unit considered below nests at most three levels deep. -/
def nestingLimit : Nat := 8

/-- One top-level step of translating a unit: process the next directive
unless translation has already failed. -/
def tuStep (acc : Except CompileError TUState) (i : Item) : Except CompileError TUState :=
  acc.bind fun s => processItem nestingLimit s [] i

/-- Translate a unit: process its directives in order from the initial
state, at global scope. -/
def processTU (items : List Item) : Except CompileError TUState :=
  items.foldl tuStep (Except.ok initState)

/-- The six legacy names restored by the shim, in the order of its six
using-declarations. -/
def legacyNames : List CxxId :=
  [.JsonArray, .JsonDocument, .JsonObject, .JsonVariant,
   .DeserializationError, .DynamicJsonDocument]

/-- Modelled from the spec: the versioned nested namespace of the external
JSON library (`<ArduinoJson.hpp>` is not part of this repository).  Per
the spec's Boundary section the library defines its types "inside a stable
nested namespace"; `ArduinoJson::V7` stands for that versioned scope. -/
def versionedNs : List CxxId := [.ArduinoJson, .V7]

/-- Modelled from the spec: the directives of the external library header,
parametric in the set of type names the library version actually declares
and in the preprocessor names it defines.  Each declared type is defined
in the versioned nested namespace and exported (inline-namespace style) so
that it is also nameable as `ArduinoJson::N`. -/
def libItems (names : List CxxId) (ppDefs : List CxxId) : List Item :=
  ppDefs.map Item.ppDefine ++
  names.map fun n => Item.declareType versionedNs [versionedNs, [CxxId.ArduinoJson]] n

/-- Modelled from the spec: the `#include <ArduinoJson.hpp>` of a library
variant declaring the given names and preprocessor definitions.  The real
library header carries an include guard. -/
def libInclude (names : List CxxId) (ppDefs : List CxxId) : Item :=
  Item.includeHeader .ArduinoJsonHpp true (libItems names ppDefs)

/-- The six using-declarations of the shim, one per source line 6 to 11 of
`src/esphome/prototypes/ArduinoJson.h`, in source order. -/
def shimUsingDecls : List Item :=
  [Item.usingDecl [.ArduinoJson] .JsonArray,
   Item.usingDecl [.ArduinoJson] .JsonDocument,
   Item.usingDecl [.ArduinoJson] .JsonObject,
   Item.usingDecl [.ArduinoJson] .JsonVariant,
   Item.usingDecl [.ArduinoJson] .DeserializationError,
   Item.usingDecl [.ArduinoJson] .DynamicJsonDocument]

/-- The shim header `src/esphome/prototypes/ArduinoJson.h` as an
`#include` directive: `#pragma once`, then `#include <ArduinoJson.hpp>`,
then the six using-declarations at global scope, parametric in the
library header it includes so that library variants can be analysed. -/
def shimInclude (lib : Item) : Item :=
  Item.includeHeader .EsphomePrototypesArduinoJsonH true (lib :: shimUsingDecls)

/-- The `#include <ArduinoJson.hpp>` of the library variant that declares
all six expected names (the configuration the shim is written against). -/
def arduinoJsonHppInclude : Item := libInclude legacyNames []

/-- The shim header over the full library: the artifact under
verification in its intended configuration. -/
def arduinoJsonShimInclude : Item := shimInclude arduinoJsonHppInclude

/-- The state of a translation unit consisting of one include of the shim
(the canonical consumer). -/
def shimState : TUState :=
  (processTU [arduinoJsonShimInclude]).toOption.getD initState

/-- The state of a translation unit that includes only the library header
directly, bypassing the shim (the baseline for frame claims). -/
def libOnlyState : TUState :=
  (processTU [arduinoJsonHppInclude]).toOption.getD initState

/-- A library variant declaring the subset of the six expected names
selected by the six flags, in the library's declaration order. -/
def subsetNames (b1 b2 b3 b4 b5 b6 : Bool) : List CxxId :=
  (if b1 then [CxxId.JsonArray] else []) ++
  (if b2 then [CxxId.JsonDocument] else []) ++
  (if b3 then [CxxId.JsonObject] else []) ++
  (if b4 then [CxxId.JsonVariant] else []) ++
  (if b5 then [CxxId.DeserializationError] else []) ++
  (if b6 then [CxxId.DynamicJsonDocument] else [])

/-- The library variant used for the preprocessor frame claim: all six
names declared, and, when the flag is set, one preprocessor name defined
by the library itself. -/
def libVariant (withDefs : Bool) : Item :=
  libInclude legacyNames (if withDefs then [CxxId.ARDUINOJSON_VERSION] else [])

/-- Acceptability of a translation outcome for a library declaring
`declared`: translation either succeeded, or it stopped at a diagnostic
that names a missing symbol, qualified with the library namespace, where
the named symbol is one of the six expected names and is indeed absent
from the library.  Exceeding the nesting budget is never acceptable. -/
def diagNamesAMissingSymbol (r : Except CompileError TUState) (declared : List CxxId) : Prop :=
  match r with
  | Except.ok _ => True
  | Except.error CompileError.depthExceeded => False
  | Except.error (CompileError.unresolvedSymbol ns n) =>
      ns = [CxxId.ArduinoJson] ∧ n ∈ legacyNames ∧ n ∉ declared

instance (r : Except CompileError TUState) (declared : List CxxId) :
    Decidable (diagNamesAMissingSymbol r declared) :=
  match r with
  | Except.ok _ => isTrue trivial
  | Except.error CompileError.depthExceeded => isFalse (fun h => h)
  | Except.error (CompileError.unresolvedSymbol ns n) =>
      inferInstanceAs (Decidable (ns = [CxxId.ArduinoJson] ∧ n ∈ legacyNames ∧ n ∉ declared))

/-- Whether a directive is an `#include`. -/
def isIncludeItem : Item → Bool
  | .includeHeader _ _ _ => true
  | _ => false

/-- Whether a directive is a preprocessor definition. -/
def isPpDefineItem : Item → Bool
  | .ppDefine _ => true
  | _ => false

/-- Whether a directive contributes a global runtime initializer. -/
def isGlobalInitItem : Item → Bool
  | .globalInit _ => true
  | _ => false

/-- Whether a header-include directive carries `#pragma once`. -/
def usesPragmaOnce : Item → Bool
  | .includeHeader _ po _ => po
  | _ => false

/-- Claim C1: in a translation unit that includes the shim, each of the
six legacy names, looked up unqualified from the global scope, denotes
exactly the same symbol (hence the same type, making the
`static_assert(std::is_same_v<N, ArduinoJson::N>)` check succeed) as the
qualified lookup `ArduinoJson::N`, and that lookup succeeds. -/
theorem legacy_names_denote_library_types :
    processTU [arduinoJsonShimInclude] = Except.ok shimState ∧
    ∀ n ∈ legacyNames,
      (lookupUnqualified shimState n).isSome ∧
      lookupUnqualified shimState n = lookupQualified shimState [CxxId.ArduinoJson] n := by
  decide

theorem legacy_names_denote_library_types_witness :
    CxxId.JsonArray ∈ legacyNames ∧
    ((lookupUnqualified shimState CxxId.JsonArray).isSome ∧
      lookupUnqualified shimState CxxId.JsonArray =
        lookupQualified shimState [CxxId.ArduinoJson] CxxId.JsonArray) :=
  ⟨by decide, legacy_names_denote_library_types.2 CxxId.JsonArray (by decide)⟩

/-- Claim C2: over every library variant declaring any subset of the six
expected names, including the shim succeeds exactly when all six names
are declared; and whenever it fails, the failure is a compile-time
diagnostic that references one of the six names, qualified with the
library namespace, which the library variant indeed does not declare —
never a silent resolution to a different symbol, and never any other
failure mode. -/
theorem shim_failure_iff_missing_symbol :
    ∀ b1 b2 b3 b4 b5 b6 : Bool,
      ((processTU [shimInclude (libInclude (subsetNames b1 b2 b3 b4 b5 b6) [])]).isOk ↔
        ∀ n ∈ legacyNames, n ∈ subsetNames b1 b2 b3 b4 b5 b6) ∧
      diagNamesAMissingSymbol
        (processTU [shimInclude (libInclude (subsetNames b1 b2 b3 b4 b5 b6) [])])
        (subsetNames b1 b2 b3 b4 b5 b6) := by
  decide

theorem shim_failure_iff_missing_symbol_witness :
    ((processTU [shimInclude (libInclude (subsetNames true true true true true false) [])]).isOk ↔
      ∀ n ∈ legacyNames, n ∈ subsetNames true true true true true false) ∧
    diagNamesAMissingSymbol
      (processTU [shimInclude (libInclude (subsetNames true true true true true false) [])])
      (subsetNames true true true true true false) :=
  shim_failure_iff_missing_symbol true true true true true false

/-- Claim C3: the shim introduces exactly the six legacy names and
nothing else.  The baseline translation unit including only the library
has no unqualified bindings at all; the unit including the shim has
exactly six bindings, whose bound names are exactly the six legacy names
(the binding list is in reverse order of introduction); and the shim
adds no namespaced declarations and no preprocessor names beyond those
of the library header it includes. -/
theorem shim_introduces_exactly_six_names :
    processTU [arduinoJsonHppInclude] = Except.ok libOnlyState ∧
    libOnlyState.bindings = [] ∧
    shimState.bindings.map (fun b => b.2.1) = legacyNames.reverse ∧
    shimState.decls = libOnlyState.decls ∧
    shimState.ppDefines = libOnlyState.ppDefines := by
  decide

/-- Claim C4: inclusion of the shim is idempotent.  For every positive
number of inclusions of the shim within one translation unit, the
translation outcome is identical to including it once: the `#pragma
once` guard prevents re-expansion, so no duplicate declarations and no
redefinition failures can arise. -/
theorem shim_inclusion_idempotent (k : Nat) (h : 1 ≤ k) :
    processTU (List.replicate k arduinoJsonShimInclude) =
      processTU [arduinoJsonShimInclude] := by
  obtain ⟨m, rfl⟩ : ∃ m, k = m + 1 := ⟨k - 1, (Nat.succ_pred_eq_of_pos h).symm⟩
  unfold processTU
  rw [List.replicate_succ, List.foldl_cons]
  have h1 : tuStep (Except.ok initState) arduinoJsonShimInclude = Except.ok shimState := by
    decide
  rw [h1]
  have h2 : ∀ mm : Nat,
      (List.replicate mm arduinoJsonShimInclude).foldl tuStep (Except.ok shimState) =
        Except.ok shimState := by
    intro mm
    induction mm with
    | zero => rfl
    | succ mm ih =>
        rw [List.replicate_succ, List.foldl_cons]
        have h3 : tuStep (Except.ok shimState) arduinoJsonShimInclude = Except.ok shimState := by
          decide
        rw [h3, ih]
  rw [h2 m, List.foldl_cons, h1, List.foldl_nil]

theorem shim_inclusion_idempotent_witness :
    1 ≤ 2 ∧
    processTU (List.replicate 2 arduinoJsonShimInclude) =
      processTU [arduinoJsonShimInclude] :=
  ⟨by decide, shim_inclusion_idempotent 2 (by decide)⟩

/-- Claim C5: each legacy name resolves to the symbol defined inside the
library's versioned nested namespace — the very symbol that direct
qualified lookup in that versioned namespace yields — so the legacy name
and the versioned namespaced name are the same type, with identical
size, alignment and member contract (type identity in the embedding). -/
theorem legacy_names_resolve_to_versioned_namespace :
    ∀ n ∈ legacyNames,
      lookupUnqualified shimState n = some ⟨versionedNs, n⟩ ∧
      lookupQualified shimState versionedNs n = some ⟨versionedNs, n⟩ := by
  decide

theorem legacy_names_resolve_to_versioned_namespace_witness :
    CxxId.JsonDocument ∈ legacyNames ∧
    (lookupUnqualified shimState CxxId.JsonDocument =
        some ⟨versionedNs, CxxId.JsonDocument⟩ ∧
      lookupQualified shimState versionedNs CxxId.JsonDocument =
        some ⟨versionedNs, CxxId.JsonDocument⟩) :=
  ⟨by decide, legacy_names_resolve_to_versioned_namespace CxxId.JsonDocument (by decide)⟩

/-- Claim C6: the shim has no runtime effect.  The shim's own directives
contain no global runtime initializer, and the runtime-observable state
of a translation unit that includes the shim equals that of the same
unit without the include (whether bare or including the library
directly): no initializers, hence no generated code or data, no I/O and
no allocation attributable to the header. -/
theorem shim_has_no_runtime_effect :
    shimUsingDecls.filter isGlobalInitItem = [] ∧
    shimState.runtimeInits = initState.runtimeInits ∧
    libOnlyState.runtimeInits = initState.runtimeInits ∧
    initState.runtimeInits = [] ∧
    processTU [] = Except.ok initState := by
  exact ⟨rfl, by decide, by decide, rfl, rfl⟩

/-- Claim C7: the shim depends on exactly one external collaborator.
Among all its directives, exactly one is an `#include` — the include of
the library header — and the rest are its six using-declarations, which
reference no other file, component or interface. -/
theorem shim_depends_on_single_include :
    (arduinoJsonHppInclude :: shimUsingDecls).filter isIncludeItem = [arduinoJsonHppInclude] ∧
    arduinoJsonShimInclude =
      Item.includeHeader CxxId.EsphomePrototypesArduinoJsonH true
        (arduinoJsonHppInclude :: shimUsingDecls) := by
  exact ⟨rfl, rfl⟩

/-- Claim C8: the six legacy names are injected at global namespace
scope: every binding produced by including the shim at translation-unit
top level has the global (empty) scope, one binding per legacy name.  By
contrast, were the same include processed inside a namespace block, the
bindings would carry that enclosing scope — so the global injection is a
fact about the shim's using-declarations standing outside any namespace,
not an artifact of the embedding. -/
theorem legacy_names_injected_at_global_scope :
    processTU [arduinoJsonShimInclude] = Except.ok shimState ∧
    shimState.bindings.map (fun b => b.1) = List.replicate 6 ([] : List CxxId) ∧
    shimState.bindings.map (fun b => b.2.1) = legacyNames.reverse ∧
    (processTU [Item.namespaceBlock (CxxId.otherId 0) [arduinoJsonShimInclude]]).toOption.map
        (fun s => s.bindings.map (fun b => b.1)) =
      some (List.replicate 6 [CxxId.otherId 0]) := by
  decide

/-- Claim C9: the shim is self-contained with respect to include order.
Its first directive is the include of the library header, placed before
all six using-declarations, and translating a unit whose only directive
is the shim include — a consumer that never included the library
beforehand — succeeds from the initial state.  Moreover a consumer that
did include the library beforehand obtains exactly the same bindings,
so resolution is independent of prior inclusion either way. -/
theorem shim_self_contained_include_order :
    (arduinoJsonHppInclude :: shimUsingDecls).head? = some arduinoJsonHppInclude ∧
    processTU [arduinoJsonShimInclude] = Except.ok shimState ∧
    (processTU [arduinoJsonHppInclude, arduinoJsonShimInclude]).toOption.map
        (fun s => s.bindings) = some shimState.bindings ∧
    ∀ n ∈ legacyNames, (lookupUnqualified shimState n).isSome := by
  refine ⟨rfl, by decide, by decide, by decide⟩

theorem shim_self_contained_include_order_witness :
    CxxId.DeserializationError ∈ legacyNames ∧
    (lookupUnqualified shimState CxxId.DeserializationError).isSome :=
  ⟨by decide,
    shim_self_contained_include_order.2.2.2 CxxId.DeserializationError (by decide)⟩

/-- Claim C10: the shim defines no preprocessor names.  Its include guard
is `#pragma once` (a pragma, not a guard macro), none of its own
directives is a preprocessor definition, and — whether or not the
library header itself defines preprocessor names — the set of
preprocessor names after including the shim equals the set after
including the library header alone. -/
theorem shim_defines_no_preprocessor_names :
    ∀ withDefs : Bool,
      (processTU [shimInclude (libVariant withDefs)]).toOption.map TUState.ppDefines =
        (processTU [libVariant withDefs]).toOption.map TUState.ppDefines ∧
      (shimUsingDecls.filter isPpDefineItem).isEmpty = true ∧
      usesPragmaOnce arduinoJsonShimInclude = true := by
  decide

theorem shim_defines_no_preprocessor_names_witness :
    (processTU [shimInclude (libVariant true)]).toOption.map TUState.ppDefines =
      (processTU [libVariant true]).toOption.map TUState.ppDefines ∧
    (shimUsingDecls.filter isPpDefineItem).isEmpty = true ∧
    usesPragmaOnce arduinoJsonShimInclude = true :=
  shim_defines_no_preprocessor_names true
